import Mathlib

/-!
Shallow embedding of the response/error/cache/auth contract of the
express-app-useable repository, together with theorems settling the
frozen claims about it.

Conventions:
* JavaScript objects whose only relevant content is a set of optional
  fields are modelled as Lean structures with `Option` fields, where
  `none` means "field omitted from the serialized object".
* Thrown exceptions are modelled with `Except`; stateful functions
  return their result together with the explicit post-state, also on
  the error path, so that "state unchanged on failure" is a real
  statement about the embedding and not an artefact of it.
* Machine integers that can only hold small non-negative values
  (HTTP status codes, unix timestamps) are `Nat`; JavaScript numbers
  that the source compares against negative bounds are `Int`.
-/

/-- JavaScript `String.prototype.startsWith`, modelled over the
character lists of the strings (Lean's own `String.startsWith` goes
through byte positions and does not reduce definitionally). -/
def jsStartsWith (s p : String) : Bool :=
  p.data.isPrefixOf s.data

/-! ## Cache layer — `src/src/utils/cache.ts` (`CacheManager`)

The NodeCache store is modelled as an association list from string keys
to values; `set` replaces any previous binding, `del` removes every
binding of the key, `keys` lists the stored keys.  TTL bookkeeping is
not modelled: no claim depends on expiry, and every cache-mutating
source line the claims cite acts on keys, not on TTLs. -/

namespace CacheM

abbrev Cache (V : Type) := List (String × V)

/-- `CacheManager.get`: value stored under `k` (first binding), `none`
when absent. -/
def get {V : Type} : Cache V → String → Option V
  | [], _ => none
  | p :: t, k => if p.1 = k then some p.2 else get t k

/-- `CacheManager.del`: remove every binding of `k`. -/
def del {V : Type} : Cache V → String → Cache V
  | [], _ => []
  | p :: t, k => if p.1 = k then del t k else p :: del t k

/-- `CacheManager.set`: store `v` under `k`, replacing any previous value. -/
def set {V : Type} (c : Cache V) (k : String) (v : V) : Cache V :=
  (k, v) :: del c k

/-- `CacheManager.keys`: all stored keys. -/
def keys {V : Type} (c : Cache V) : List String :=
  c.map (fun p => p.1)

/-- `CacheManager.delPattern`: collect the keys starting with `pat` and
delete them one by one (the source filters `keys()` by `startsWith` and
calls `del` on each). -/
def delPattern {V : Type} (c : Cache V) (pat : String) : Cache V :=
  ((keys c).filter (fun k => jsStartsWith k pat)).foldl (fun acc k => del acc k) c

/-- `CacheManager.getOrSet`: serve a hit from the cache; on a miss run
the producer, store its result, and return it; a producer failure is
logged and rethrown, with no store.  The producer's outcome is passed
in as an `Except` value. -/
def getOrSet {V E : Type} (c : Cache V) (k : String) (fetchResult : Except E V) :
    Except E V × Cache V :=
  match get c k with
  | some v => (.ok v, c)
  | none =>
    match fetchResult with
    | .ok v => (.ok v, set c k v)
    | .error e => (.error e, c)
end CacheM

/-! ## HTTP status constants — `@/constants/http-status`

Modelled from the spec: the `HttpStatus` enum file is not part of the
snapshot (only its import sites are).  Spec §4.1 fixes the numeric codes
the helpers use: 200 OK, 201 Created, 204 No Content, 400 Bad Request,
401 Unauthorized, 403 Forbidden, 404 Not Found, 409 Conflict,
422 Unprocessable, 429 Too Many Requests, 500 Internal, 503 Unavailable. -/

namespace HttpStatus

def OK : Nat := 200
def CREATED : Nat := 201
def NO_CONTENT : Nat := 204
def BAD_REQUEST : Nat := 400
def UNAUTHORIZED : Nat := 401
def FORBIDDEN : Nat := 403
def NOT_FOUND : Nat := 404
def CONFLICT : Nat := 409
def UNPROCESSABLE_ENTITY : Nat := 422
def TOO_MANY_REQUESTS : Nat := 429
def INTERNAL_SERVER_ERROR : Nat := 500
def SERVICE_UNAVAILABLE : Nat := 503

end HttpStatus

/-! ## Message constants — `constants/message` (src/unnamed/part_010) -/

/-- `Object.values(MessageCodes)`: the closed set of message codes. -/
def MessageCodesValues : List String :=
  ["SUCCESS", "CREATED", "UPDATED", "DELETED", "ACCEPTED",
   "BAD_REQUEST", "UNAUTHORIZED", "FORBIDDEN", "NOT_FOUND", "CONFLICT",
   "VALIDATION_FAILED", "INVALID_CREDENTIALS", "TOO_MANY_REQUESTS",
   "INTERNAL_ERROR", "SERVICE_UNAVAILABLE", "UNPROCESSABLE_ENTITY"]

/-- `getMessageByCode`: canonical text of a message code
(`Messages[code] || Messages.INTERNAL_ERROR`). -/
def getMessageByCode (code : String) : String :=
  match code with
  | "SUCCESS" => "Success"
  | "CREATED" => "Created successfully"
  | "UPDATED" => "Updated successfully"
  | "DELETED" => "Deleted successfully"
  | "ACCEPTED" => "Request accepted"
  | "BAD_REQUEST" => "Bad request"
  | "UNAUTHORIZED" => "Unauthorized"
  | "FORBIDDEN" => "Forbidden"
  | "NOT_FOUND" => "Not found"
  | "CONFLICT" => "Conflict occurred"
  | "VALIDATION_FAILED" => "Validation failed"
  | "INVALID_CREDENTIALS" => "Email or password is incorrect"
  | "TOO_MANY_REQUESTS" => "Too many requests"
  | "UNPROCESSABLE_ENTITY" => "Unprocessable entity"
  | "INTERNAL_ERROR" => "Internal server error"
  | "SERVICE_UNAVAILABLE" => "Service unavailable"
  | _ => "Internal server error"

/-! ## Response formatter — `src/src/utils/response.ts` (`ResponseUtil`) -/

/-- JSON values: the payloads carried by response envelopes. -/
inductive JsonVal where
  | null
  | str (s : String)
  | num (n : Int)
  | bool (b : Bool)
  | arr (xs : List JsonVal)
  | obj (fields : List (String × JsonVal))

/-- Entries of a response's `errors` array: Zod issues `{path, message}`
and the `{meta}` / `{cause}` objects the error handler appends for
storage-layer errors. -/
inductive ErrItem where
  | issue (path : String) (message : String)
  | metaInfo (meta : String)
  | causeInfo (cause : String)
deriving DecidableEq

/-- The `pagination` metadata object built by `ResponseUtil.paginated`. -/
structure Pagination where
  page : Int
  limit : Int
  total : Int
  totalPages : Int
  hasNext : Bool
  hasPrev : Bool
  nextPage : Option Int
  prevPage : Option Int
deriving DecidableEq

/-- The `extra` record spread into the envelope by `ResponseUtil.base`:
`pagination` from `paginated`, `retryAfter` from `tooManyRequests`. -/
structure Extra where
  pagination : Option Pagination
  retryAfter : Option Int

/-- The response envelope.  A field whose value is `none` is omitted from
the serialized JSON object.  `timestamp` (construction instant) and
`path` (request URL) are environmental and carry no claim content, so
they are not modelled. -/
structure Envelope where
  success : Bool
  message : String
  data : Option JsonVal
  errors : Option (List ErrItem)
  messageCode : Option String
  pagination : Option Pagination
  retryAfter : Option Int

namespace ResponseUtil

/-- `ResponseUtil.base`: assemble the envelope and the HTTP status it is
written with.  `data` is included only when it is not `null`; `errors`
and `messageCode` only when supplied (in the source: when truthy — all
message codes are non-empty strings, and any array is truthy). -/
def base (succ : Bool) (message : String) (data : JsonVal) (statusCode : Nat)
    (errs : Option (List ErrItem)) (extra : Extra) (messageCode : Option String) :
    Nat × Envelope :=
  (statusCode,
    { success := succ
      message := message
      data := match data with
              | JsonVal.null => none
              | d => some d
      errors := errs
      messageCode := messageCode
      pagination := extra.pagination
      retryAfter := extra.retryAfter })

/-- JavaScript truthiness of an optional string argument:
`undefined` and `""` are falsy. -/
def optionStrTruthy : Option String → Bool
  | some s => s != ""
  | none => false

/-- `ResponseUtil._resolveMessageAndCode`: a known message code resolves
to its canonical text plus the code; any other string is used verbatim
with no code; with no input the default code (when given) supplies both. -/
def resolveMessageAndCode (messageOrCode : Option String) (defaultCode : Option String) :
    String × Option String :=
  match messageOrCode with
  | some s =>
    if MessageCodesValues.contains s then (getMessageByCode s, some s)
    else (s, none)
  | none =>
    match defaultCode with
    | some d => (getMessageByCode d, some d)
    | none => ("An unexpected error occurred.", none)

/-- `ResponseUtil.success` (implementation overload): resolves a truthy
`messageOrCode`, otherwise falls back to the literal `"Success"` with no
message code. -/
def success (data : JsonVal) (statusCode : Nat) (messageOrCode : Option String) :
    Nat × Envelope :=
  if optionStrTruthy messageOrCode then
    let r := resolveMessageAndCode messageOrCode none
    base true r.1 data statusCode none ⟨none, none⟩ r.2
  else
    base true "Success" data statusCode none ⟨none, none⟩ none

/-- `ResponseUtil.error`: default status 500, default code `INTERNAL_ERROR`. -/
def error (messageOrCode : Option String) (errs : Option (List ErrItem))
    (statusCode : Nat) : Nat × Envelope :=
  let r := resolveMessageAndCode messageOrCode (some "INTERNAL_ERROR")
  base false r.1 JsonVal.null statusCode errs ⟨none, none⟩ r.2

/-- `ResponseUtil.notFound`: status 404, default code `NOT_FOUND`. -/
def notFound (messageOrCode : Option String) : Nat × Envelope :=
  let r := resolveMessageAndCode messageOrCode (some "NOT_FOUND")
  base false r.1 JsonVal.null HttpStatus.NOT_FOUND none ⟨none, none⟩ r.2

/-- `ResponseUtil.created`: status 201, default code `CREATED`. -/
def created (data : JsonVal) (messageOrCode : Option String) : Nat × Envelope :=
  let r := resolveMessageAndCode messageOrCode (some "CREATED")
  base true r.1 data HttpStatus.CREATED none ⟨none, none⟩ r.2

/-- `ResponseUtil.validationError`: status 400, message defaulting to
`"Validation failed"`, required errors array. -/
def validationError (errs : List ErrItem) (message : String) : Nat × Envelope :=
  base false message JsonVal.null HttpStatus.BAD_REQUEST (some errs) ⟨none, none⟩ none

/-- `ResponseUtil.unprocessableEntity`: status 422. -/
def unprocessableEntity (message : String) (errs : Option (List ErrItem)) :
    Nat × Envelope :=
  base false message JsonVal.null HttpStatus.UNPROCESSABLE_ENTITY errs ⟨none, none⟩ none

/-- `ResponseUtil.unauthorized`: status 401. -/
def unauthorized (message : String) : Nat × Envelope :=
  base false message JsonVal.null HttpStatus.UNAUTHORIZED none ⟨none, none⟩ none

/-- `ResponseUtil.forbidden`: status 403. -/
def forbidden (message : String) : Nat × Envelope :=
  base false message JsonVal.null HttpStatus.FORBIDDEN none ⟨none, none⟩ none

/-- `ResponseUtil.noContent`: status 204, success envelope. -/
def noContent (message : String) : Nat × Envelope :=
  base true message JsonVal.null HttpStatus.NO_CONTENT none ⟨none, none⟩ none

/-- `ResponseUtil.tooManyRequests`: status 429; `retryAfter` is spread
into the envelope only when truthy (so not when it is 0). -/
def tooManyRequests (message : String) (retryAfter : Option Int) : Nat × Envelope :=
  let extra : Extra :=
    match retryAfter with
    | some r => if r != 0 then ⟨none, some r⟩ else ⟨none, none⟩
    | none => ⟨none, none⟩
  base false message JsonVal.null HttpStatus.TOO_MANY_REQUESTS none extra none

/-- `ResponseUtil.serviceUnavailable`: status 503. -/
def serviceUnavailable (message : String) : Nat × Envelope :=
  base false message JsonVal.null HttpStatus.SERVICE_UNAVAILABLE none ⟨none, none⟩ none

/-- `ResponseUtil.paginated`: contract checks first (each violation is a
thrown `Error`, modelled as `Except.error`, writing no response), then the
pagination block with `totalPages = Math.ceil(total / limit)` — for
`limit > 0`, `total ≥ 0` this is `(total + limit - 1) / limit`. -/
def paginated (data : List JsonVal) (page limit total : Int) (message : String) :
    Except String (Nat × Envelope) :=
  if limit ≤ 0 then Except.error "Limit must be greater than 0"
  else if page < 1 then Except.error "Page must be greater than 0"
  else if total < 0 then Except.error "Total must be non-negative"
  else
    let totalPages : Int := (total + limit - 1) / limit
    let hasNext : Bool := decide (page < totalPages)
    let hasPrev : Bool := decide (1 < page)
    Except.ok (base true message (JsonVal.arr data) HttpStatus.OK none
      ⟨some { page := page, limit := limit, total := total, totalPages := totalPages,
              hasNext := hasNext, hasPrev := hasPrev,
              nextPage := if hasNext then some (page + 1) else none,
              prevPage := if hasPrev then some (page - 1) else none },
        none⟩ none)

end ResponseUtil

/-- The message/messageCode pair of a formatted response. -/
def envMsg (r : Nat × Envelope) : String × Option String :=
  (r.2.message, r.2.messageCode)

/-- One call to a public `ResponseUtil` helper, with its arguments. -/
inductive FormatterCall where
  | success (data : JsonVal) (statusCode : Nat) (messageOrCode : Option String)
  | error (messageOrCode : Option String) (errs : Option (List ErrItem)) (statusCode : Nat)
  | notFound (messageOrCode : Option String)
  | created (data : JsonVal) (messageOrCode : Option String)
  | validationError (errs : List ErrItem) (message : String)
  | unprocessableEntity (message : String) (errs : Option (List ErrItem))
  | unauthorized (message : String)
  | forbidden (message : String)
  | noContent (message : String)
  | tooManyRequests (message : String) (retryAfter : Option Int)
  | serviceUnavailable (message : String)
  | paginated (data : List JsonVal) (page limit total : Int) (message : String)

/-- Dispatch a formatter call to the corresponding helper. -/
def buildCall : FormatterCall → Except String (Nat × Envelope)
  | .success d st m => Except.ok (ResponseUtil.success d st m)
  | .error m errs st => Except.ok (ResponseUtil.error m errs st)
  | .notFound m => Except.ok (ResponseUtil.notFound m)
  | .created d m => Except.ok (ResponseUtil.created d m)
  | .validationError errs m => Except.ok (ResponseUtil.validationError errs m)
  | .unprocessableEntity m errs => Except.ok (ResponseUtil.unprocessableEntity m errs)
  | .unauthorized m => Except.ok (ResponseUtil.unauthorized m)
  | .forbidden m => Except.ok (ResponseUtil.forbidden m)
  | .noContent m => Except.ok (ResponseUtil.noContent m)
  | .tooManyRequests m r => Except.ok (ResponseUtil.tooManyRequests m r)
  | .serviceUnavailable m => Except.ok (ResponseUtil.serviceUnavailable m)
  | .paginated d p l t m => ResponseUtil.paginated d p l t m

/-- Calls that pass a payload to `base` (the others pass `null`). -/
def suppliesPayload : FormatterCall → Bool
  | .success _ _ _ => true
  | .created _ _ => true
  | .paginated _ _ _ _ _ => true
  | _ => false

/-! ## Storage-error table — `src/src/errors/prisma-error.ts` -/

/-- One row of the static `prismaErrorCodes` lookup table. -/
structure PrismaErrorInfo where
  code : String
  message : String
  commonCause : Option String
  httpStatus : Option Nat
  suggestion : Option String
deriving DecidableEq

/-- The static lookup table of known storage error codes. -/
def prismaErrorCodes : List PrismaErrorInfo :=
  [⟨"P2002", "Unique constraint failed",
    some "Mencoba membuat data dengan nilai unik yang sudah ada (misalnya, email duplikat).",
    some HttpStatus.CONFLICT,
    some "Periksa nilai unik (mis. email) dan kembalikan pesan yang menjelaskan field duplikat."⟩,
   ⟨"P2025", "Record to update or delete does not exist",
    some "Mencoba mengupdate atau menghapus data yang tidak ditemukan berdasarkan ID atau kondisi where.",
    some HttpStatus.NOT_FOUND,
    some "Pastikan resource ada sebelum melakukan update/delete."⟩,
   ⟨"P2003", "Foreign key constraint failed",
    some "Mencoba membuat atau mengupdate data dengan foreign key yang tidak merujuk ke record yang ada di tabel lain.",
    some HttpStatus.BAD_REQUEST,
    some "Validasi relasi yang direferensikan sebelum menyimpan."⟩,
   ⟨"P1001", "Can't reach database server",
    some "Aplikasi tidak bisa terhubung ke database. Bisa karena kredensial salah, server database mati, atau masalah jaringan/firewall.",
    some HttpStatus.SERVICE_UNAVAILABLE,
    some "Periksa koneksi database dan konfigurasi environment."⟩,
   ⟨"P1000", "Authentication failed against database server",
    some "Kredensial (username/password) pada URL koneksi database salah.",
    some HttpStatus.UNAUTHORIZED,
    some "Periksa DATABASE_URL dan kredensial."⟩,
   ⟨"P1012", "Schema validation error",
    some "Terdapat kesalahan sintaks atau logika dalam file schema.prisma Anda.",
    some HttpStatus.INTERNAL_SERVER_ERROR,
    some "Perbaiki file schema.prisma dan jalankan kembali migrasi/generate."⟩,
   ⟨"P1017", "Server has closed the connection",
    some "Koneksi ke database terputus secara tidak terduga oleh server.",
    some HttpStatus.SERVICE_UNAVAILABLE,
    some "Periksa stabilitas koneksi database dan timeout."⟩,
   ⟨"P2000", "The provided value for the column is too long",
    some "Nilai string yang dimasukkan lebih panjang dari batas yang diizinkan oleh kolom di database.",
    some HttpStatus.BAD_REQUEST,
    some "Validasi panjang input sebelum menyimpan."⟩,
   ⟨"P2011", "Null constraint violation",
    some "Mencoba memasukkan nilai null pada kolom yang wajib diisi (NOT NULL).",
    some HttpStatus.BAD_REQUEST,
    some "Tambahkan validasi untuk memastikan field wajib diisi."⟩,
   ⟨"P3001", "Migration failed to apply",
    some "Gagal saat menjalankan file migrasi SQL, biasanya disertai detail error dari database.",
    some HttpStatus.INTERNAL_SERVER_ERROR,
    some "Periksa script migrasi dan error yang muncul dari database."⟩,
   ⟨"P3006", "Migration failed due to a drift in the database schema",
    some "Struktur database diubah secara manual (di luar Prisma Migrate), menyebabkan konflik. Perlu reset atau membuat migrasi baru.",
    some HttpStatus.INTERNAL_SERVER_ERROR,
    some "Pertimbangkan reset migrasi pada development atau perbaiki skema di produksi dengan hati-hati."⟩]

/-- `findErrorDetails`: table lookup by code (`undefined` finds nothing). -/
def findErrorDetails (errorCode : Option String) : Option PrismaErrorInfo :=
  match errorCode with
  | none => none
  | some c => prismaErrorCodes.find? (fun e => e.code == c)

/-- The record `mapPrismaError` returns. -/
structure MappedPrismaError where
  code : String
  message : String
  commonCause : Option String
  suggestion : Option String
  httpStatus : Nat
  meta : Option String
deriving DecidableEq

/-- `mapPrismaError`: a known code maps through the table (status
defaulting to 500); an unknown code falls back to the error's own raw
message (`'Database error'` when absent) with status 500. -/
def mapPrismaError (code : Option String) (message : Option String)
    (meta : Option String) : MappedPrismaError :=
  match findErrorDetails code with
  | some details =>
    { code := details.code
      message := details.message
      commonCause := details.commonCause
      suggestion := details.suggestion
      httpStatus := details.httpStatus.getD HttpStatus.INTERNAL_SERVER_ERROR
      meta := meta }
  | none =>
    { code := code.getD "PRISMA_UNKNOWN"
      message := message.getD "Database error"
      commonCause := none
      suggestion := none
      httpStatus := HttpStatus.INTERNAL_SERVER_ERROR
      meta := meta }

/-! ## Error classifier — `errorHandler` (src/unnamed/part_006) -/

/-- The classes of thrown values the error handler's `instanceof` /
field-inspection chain distinguishes, with the fields each branch reads.
`AppError` — `@/errors/app-error`, a file not in the snapshot — is
modelled from the spec: §7 describes it as the explicit business
exception carrying a caller-supplied status and message (plus the
optional `errors` array the handler copies out); every construction
site in the snapshot is `new AppError(message, statusCode)`. -/
inductive ThrownError where
  | zod (issues : List (String × String))
  | jsonWebTokenError
  | tokenExpiredError
  | multerError
  | prisma (code : String) (message : Option String) (meta : Option String)
  | appError (message : String) (statusCode : Nat) (errs : Option (List ErrItem))
  | syntaxBody
  | generic (message : Option String)

/-- What the error handler hands to `ResponseUtil.error`. -/
structure ClassifiedError where
  statusCode : Nat
  message : String
  errors : Option (List ErrItem)
deriving DecidableEq

/-- `errorHandler`: the first-match-wins classification chain.  The
`err.message?.startsWith("File type")` test sits before the storage-error
and `AppError` branches, so it intercepts any later-class error whose
message starts with that text.  In the storage branch, `meta` and
`commonCause` are appended to the `errors` array when present, and an
empty raw message falls back to `"A database error occurred"`
(`mapped.message || ...`). -/
def errorHandler : ThrownError → ClassifiedError
  | .zod issues =>
    ⟨HttpStatus.BAD_REQUEST, "Invalid input data.",
      some (issues.map (fun i => ErrItem.issue i.1 i.2))⟩
  | .jsonWebTokenError => ⟨HttpStatus.UNAUTHORIZED, "Invalid token", none⟩
  | .tokenExpiredError => ⟨HttpStatus.UNAUTHORIZED, "Token expired", none⟩
  | .multerError => ⟨HttpStatus.BAD_REQUEST, "File upload failed", none⟩
  | .prisma code msg meta =>
    if jsStartsWith (msg.getD "") "File type" then
      ⟨HttpStatus.BAD_REQUEST, "Invalid file type", none⟩
    else
      let mapped := mapPrismaError (some code) msg meta
      let extra :=
        (match mapped.meta with
         | some mm => [ErrItem.metaInfo mm]
         | none => []) ++
        (match mapped.commonCause with
         | some cc => [ErrItem.causeInfo cc]
         | none => [])
      ⟨mapped.httpStatus,
        if mapped.message != "" then mapped.message else "A database error occurred",
        if extra.isEmpty then none else some extra⟩
  | .appError m st errs =>
    if jsStartsWith m "File type" then
      ⟨HttpStatus.BAD_REQUEST, "Invalid file type", none⟩
    else ⟨st, m, errs⟩
  | .syntaxBody => ⟨HttpStatus.BAD_REQUEST, "Invalid JSON in request body", none⟩
  | .generic msg =>
    if jsStartsWith (msg.getD "") "File type" then
      ⟨HttpStatus.BAD_REQUEST, "Invalid file type", none⟩
    else ⟨HttpStatus.INTERNAL_SERVER_ERROR, "Internal server error", none⟩

/-! ## User resource service — `src/src/service/user.service.ts` over
`src/src/repositories/user.repository.ts`

The Prisma-backed user table is a list of rows; generated ids and bcrypt
hashing/comparison are environmental, passed in as parameters.  Service
functions return their outcome together with the explicit post-state
(database plus cache), also on the error path. -/

structure User where
  id : String
  name : String
  email : String
  password : String
deriving DecidableEq

structure CreateUserInput where
  name : String
  email : String
  password : String
deriving DecidableEq

structure UpdateUserInput where
  name : Option String
  password : Option String
deriving DecidableEq

/-- The paginated list payload `getAllUserService` caches under
`users:all:page:<p>:limit:<l>` (rows are `(id, name, email)`). -/
structure PaginatedUserResponse where
  userRows : List (String × String × String)
  page : Int
  limit : Int
  total : Int
  totalPages : Int
  hasNextPage : Bool
  hasPrevPage : Bool
deriving DecidableEq

/-- Database plus process-local cache, the state the services act on. -/
structure SvcState where
  db : List User
  cache : CacheM.Cache PaginatedUserResponse

namespace UserRepository

/-- `UserRepository.findById` (`db.user.findUnique({where: {id}})`). -/
def findById (db : List User) (id : String) : Option User :=
  db.find? (fun u => u.id == id)

/-- `UserRepository.findByEmail`, optionally excluding one id. -/
def findByEmail (db : List User) (email : String) (ignoreUserId : Option String) :
    Option User :=
  db.find? (fun u => u.email == email &&
    (match ignoreUserId with
     | some i => u.id != i
     | none => true))

/-- `UserRepository.create`: persist a new row; the id is generated by
the database (`freshId`); a duplicate email violates the unique
constraint and raises P2002. -/
def create (db : List User) (freshId : String) (data : CreateUserInput) :
    Except ThrownError (User × List User) :=
  if db.any (fun u => u.email == data.email) then
    Except.error (ThrownError.prisma "P2002"
      (some "Unique constraint failed on the fields: (email)") none)
  else
    let u : User := ⟨freshId, data.name, data.email, data.password⟩
    Except.ok (u, db ++ [u])

/-- `UserRepository.update`: raises P2025 when the id is absent. -/
def update (db : List User) (id : String) (data : UpdateUserInput) :
    Except ThrownError (User × List User) :=
  match db.find? (fun u => u.id == id) with
  | none => Except.error (ThrownError.prisma "P2025" none none)
  | some u =>
    let u' : User :=
      { u with
        name := data.name.getD u.name
        password := data.password.getD u.password }
    Except.ok (u', db.map (fun v => if v.id == id then u' else v))

/-- `UserRepository.delete`: raises P2025 when the id is absent. -/
def delete (db : List User) (id : String) : Except ThrownError (User × List User) :=
  match db.find? (fun u => u.id == id) with
  | none => Except.error (ThrownError.prisma "P2025" none none)
  | some u => Except.ok (u, db.filter (fun v => v.id != id))

end UserRepository

namespace UserService

/-- `getUserByIdService`: read-only; throws the `Not found` domain error
(`AppError(Messages.NOT_FOUND, HttpStatus.NOT_FOUND)`) when absent,
otherwise redacts the password. -/
def getUserByIdService (userId : String) (st : SvcState) :
    Except ThrownError User × SvcState :=
  match UserRepository.findById st.db userId with
  | none =>
    (Except.error (ThrownError.appError "Not found" HttpStatus.NOT_FOUND none), st)
  | some u => (Except.ok { u with password := "[REDACTED]" }, st)

/-- `invalidateUserListCache`: `cacheManager.delPattern('users:all:page:')`. -/
def invalidateUserListCache (c : CacheM.Cache PaginatedUserResponse) :
    CacheM.Cache PaginatedUserResponse :=
  CacheM.delPattern c "users:all:page:"

/-- `getAllUserService` with `page`/`limit` already defaulted and the
repository read (`rows`, `total`) passed in: cache-first, priming the
cache on a miss under the key `users:all:page:<p>:limit:<l>`. -/
def getAllUserService (rows : List (String × String × String)) (total : Int)
    (page limit : Int) (st : SvcState) : PaginatedUserResponse × SvcState :=
  let cacheKey := "users:all:page:" ++ toString page ++ ":limit:" ++ toString limit
  match CacheM.get st.cache cacheKey with
  | some cached => (cached, st)
  | none =>
    let totalPages : Int := (total + limit - 1) / limit
    let result : PaginatedUserResponse :=
      ⟨rows, page, limit, total, totalPages,
        decide (page < totalPages), decide (1 < page)⟩
    (result, { st with cache := CacheM.set st.cache cacheKey result })

/-- `createUserService`: hash the password, persist, then invalidate the
whole paginated user-list cache before returning the redacted user. -/
def createUserService (hash : String → String) (freshId : String)
    (data : CreateUserInput) (st : SvcState) :
    Except ThrownError User × SvcState :=
  match UserRepository.create st.db freshId
      { data with password := hash data.password } with
  | Except.error e => (Except.error e, st)
  | Except.ok (u, db') =>
    (Except.ok { u with password := "[REDACTED]" },
      { db := db', cache := invalidateUserListCache st.cache })

/-- `updateUserService`: existence check first (throws `Not found`),
then hash any incoming password, persist, invalidate the list cache,
and return the redacted user. -/
def updateUserService (hash : String → String) (userId : String)
    (data : UpdateUserInput) (st : SvcState) :
    Except ThrownError User × SvcState :=
  match (getUserByIdService userId st).1 with
  | Except.error e => (Except.error e, st)
  | Except.ok _ =>
    let data' : UpdateUserInput :=
      match data.password with
      | some p => { data with password := some (hash p) }
      | none => data
    match UserRepository.update st.db userId data' with
    | Except.error e => (Except.error e, st)
    | Except.ok (u, db') =>
      (Except.ok { u with password := "[REDACTED]" },
        { db := db', cache := invalidateUserListCache st.cache })

/-- `deleteUserService`: existence check first (throws `Not found`),
then persist the delete, invalidate the list cache, and return the
redacted user. -/
def deleteUserService (userId : String) (st : SvcState) :
    Except ThrownError User × SvcState :=
  match (getUserByIdService userId st).1 with
  | Except.error e => (Except.error e, st)
  | Except.ok _ =>
    match UserRepository.delete st.db userId with
    | Except.error e => (Except.error e, st)
    | Except.ok (u, db') =>
      (Except.ok { u with password := "[REDACTED]" },
        { db := db', cache := invalidateUserListCache st.cache })

/-- `loginService`: unknown email and wrong password both throw
`AppError(Messages.INVALID_CREDENTIALS, HttpStatus.UNAUTHORIZED)`;
success signs a token (environmental, passed in) and redacts the
password.  `compare` is `BcryptUtil.compare`. -/
def loginService (compare : String → String → Bool) (token : String)
    (email password : String) (st : SvcState) :
    Except ThrownError (String × User) × SvcState :=
  match UserRepository.findByEmail st.db email none with
  | none =>
    (Except.error (ThrownError.appError "Email or password is incorrect"
      HttpStatus.UNAUTHORIZED none), st)
  | some u =>
    if compare password u.password then
      (Except.ok (token, { u with password := "[REDACTED]" }), st)
    else
      (Except.error (ThrownError.appError "Email or password is incorrect"
        HttpStatus.UNAUTHORIZED none), st)

end UserService

/-! ## Authentication gate — `authMiddleware` (src/unnamed/part_006) over
`JwtUtil.verify` (`src/src/utils/jwt.ts`)

`jsonwebtoken.verify` checks the signature, the issuer and the `exp`
claim itself: a malformed token, a bad signature or a wrong issuer raise
`JsonWebTokenError`, and a structurally valid token whose `exp` has
passed raises `TokenExpiredError`.  Tokens are modelled abstractly:
either malformed, or signed with a payload, an expiry instant and a
validity bit covering signature plus issuer. -/

/-- The JWT payload of this app (`user_id`, `email`, `name`). -/
structure JwtClaims where
  user_id : String
  email : String
  name : String
deriving DecidableEq

/-- A presented bearer token. -/
inductive Token where
  | malformed
  | signed (claims : JwtClaims) (exp : Nat) (valid : Bool)
deriving DecidableEq

/-- The decoded payload `JwtUtil.verify` returns (registered claim `exp`
included). -/
structure DecodedJwt where
  claims : JwtClaims
  exp : Nat
deriving DecidableEq

inductive VerifyError where
  | invalid
  | expired
deriving DecidableEq

/-- `JwtUtil.verify` at clock instant `now`: `jsonwebtoken` raises
`JsonWebTokenError` when no token is provided, the token is malformed,
the signature is bad or the issuer mismatches, and `TokenExpiredError`
when `now ≥ exp`. -/
def jwtVerify (now : Nat) (tok : Option Token) : Except VerifyError DecodedJwt :=
  match tok with
  | none => Except.error VerifyError.invalid
  | some Token.malformed => Except.error VerifyError.invalid
  | some (Token.signed c e v) =>
    if v = false then Except.error VerifyError.invalid
    else if e ≤ now then Except.error VerifyError.expired
    else Except.ok ⟨c, e⟩

/-- The credential transport `config.TOKEN_SET_IN` selects. -/
inductive Transport where
  | cookie
  | header
deriving DecidableEq

/-- The request fields the gate inspects: `req.cookies` (the jar, whose
`token` entry may itself be absent) and the `Authorization` header
(whether it starts with `Bearer `, and the token after the split). -/
structure AuthRequest where
  cookies : Option (Option Token)
  authHeader : Option (Bool × Option Token)
deriving DecidableEq

/-- Everything the middleware can do to the request/response pair. -/
structure AuthOutcome where
  response : Option (Nat × String)
  cookieCleared : Bool
  nextCalled : Bool
  authUser : Option DecodedJwt
deriving DecidableEq

/-- The gate's initial guard: in cookie mode reject when there is no
cookie jar, in header mode reject when the header is absent or lacks the
`Bearer ` prefix. -/
def authGuardRejects (transport : Transport) (req : AuthRequest) : Bool :=
  (req.cookies.isNone && transport == Transport.cookie) ||
    ((match req.authHeader with
      | none => true
      | some (bearer, _) => !bearer) && transport == Transport.header)

/-- The `switch (config.TOKEN_SET_IN)` token extraction. -/
def extractToken (transport : Transport) (req : AuthRequest) : Option Token :=
  match transport with
  | Transport.cookie => req.cookies.bind (fun jar => jar)
  | Transport.header => req.authHeader.bind (fun h => h.2)

/-- `authMiddleware`: guard, extract, verify.  A verification failure
(malformed, bad signature, or expired — `jsonwebtoken` raises before the
middleware's own expiry check can run) is caught and answered with
401 `"Invalid or expired token"`.  When verification succeeds the
middleware computes its own expiry flag `today > decoded.exp`, clears
the cookie if that flag is set, attaches the payload and calls
`next()`. -/
def authMiddleware (transport : Transport) (now : Nat) (req : AuthRequest) :
    AuthOutcome :=
  if authGuardRejects transport req then
    ⟨some (HttpStatus.UNAUTHORIZED, "Unauthorized"), false, false, none⟩
  else
    match jwtVerify now (extractToken transport req) with
    | Except.error _ =>
      ⟨some (HttpStatus.UNAUTHORIZED, "Invalid or expired token"), false, false, none⟩
    | Except.ok decoded =>
      let isExpirytoken := decide (decoded.exp < now)
      ⟨none, isExpirytoken, true, some decoded⟩

/-! ## Theorems: the cache lemmas, then the claims -/

namespace CacheM

theorem get_del {V : Type} (c : Cache V) (k k' : String) :
    get (del c k) k' = if k' = k then none else get c k' := by
  induction c with
  | nil => simp [get, del]
  | cons p t ih =>
    by_cases hpk : p.1 = k <;> by_cases hpk' : p.1 = k' <;>
      simp_all [get, del]

theorem get_foldl_del {V : Type} (L : List String) (c : Cache V) (k : String) :
    get (L.foldl (fun acc x => del acc x) c) k =
      if k ∈ L then none else get c k := by
  induction L generalizing c with
  | nil => simp
  | cons a L ih =>
    simp only [List.foldl_cons, ih, get_del, List.mem_cons]
    by_cases hL : k ∈ L
    · simp [hL]
    · by_cases ha : k = a <;> simp [hL, ha]

theorem mem_keys_of_get_eq_some {V : Type} {c : Cache V} {k : String} {v : V}
    (h : get c k = some v) : k ∈ keys c := by
  induction c with
  | nil => simp [get] at h
  | cons p t ih =>
    by_cases hpk : p.1 = k
    · simp [keys, hpk]
    · simp only [get, hpk, if_false] at h
      simp [keys] at ih ⊢
      exact Or.inr (by simpa [keys] using ih h)

/-- After `delPattern c pat`, no key starting with `pat` is present. -/
theorem get_delPattern_of_startsWith {V : Type} (c : Cache V) {pat k : String}
    (h : jsStartsWith k pat = true) : get (delPattern c pat) k = none := by
  unfold delPattern
  rw [get_foldl_del]
  by_cases hmem : k ∈ (keys c).filter (fun k => jsStartsWith k pat)
  · simp [hmem]
  · simp only [hmem, if_false]
    cases hg : get c k with
    | none => rfl
    | some v =>
      exact absurd (List.mem_filter.mpr ⟨mem_keys_of_get_eq_some hg, h⟩) hmem

/-- Keys not starting with `pat` keep their value across `delPattern`. -/
theorem get_delPattern_of_not_startsWith {V : Type} (c : Cache V) {pat k : String}
    (h : jsStartsWith k pat = false) : get (delPattern c pat) k = get c k := by
  unfold delPattern
  rw [get_foldl_del]
  by_cases hmem : k ∈ (keys c).filter (fun k => jsStartsWith k pat)
  · have := (List.mem_filter.mp hmem).2
    rw [h] at this
    exact absurd this (by simp)
  · simp [hmem]

end CacheM

/-- C10: if the producer passed to the cache's `getOrSet` fails on a cache
miss, the failure propagates to the caller and nothing is stored under the
key: a subsequent `get` on that key still returns `none`. -/
theorem C10_getOrSet_producer_failure_stores_nothing
    {V E : Type} (c : CacheM.Cache V) (k : String) (e : E)
    (hmiss : CacheM.get c k = none) :
    CacheM.getOrSet c k (Except.error e) = (Except.error e, c) ∧
      CacheM.get (CacheM.getOrSet c k (Except.error e)).2 k = none := by
  unfold CacheM.getOrSet
  rw [hmiss]
  exact ⟨rfl, hmiss⟩

/-- Witness for C10 at a concrete cache and key. -/
theorem C10_getOrSet_producer_failure_stores_nothing_witness :
    CacheM.getOrSet ([("a", 1)] : CacheM.Cache Nat) "b" (Except.error "boom") =
        (Except.error "boom", [("a", 1)]) ∧
      CacheM.get (CacheM.getOrSet ([("a", 1)] : CacheM.Cache Nat) "b"
        (Except.error "boom")).2 "b" = none :=
  C10_getOrSet_producer_failure_stores_nothing [("a", 1)] "b" "boom" (by decide)

/-- C4: `ResponseUtil.paginated` throws (a contract violation, writing no
HTTP response — `Except.error` carries no envelope) exactly when its
arguments violate `limit > 0 ∧ page ≥ 1 ∧ total ≥ 0`; in particular
`page = 0` and `limit = 0` each throw. -/
theorem C4_paginated_contract_violation_iff
    (data : List JsonVal) (page limit total : Int) (message : String) :
    (∃ e, ResponseUtil.paginated data page limit total message = Except.error e) ↔
      (limit ≤ 0 ∨ page < 1 ∨ total < 0) := by
  unfold ResponseUtil.paginated
  by_cases h1 : limit ≤ 0
  · simp [h1]
  · by_cases h2 : page < 1
    · simp [h1, h2]
    · by_cases h3 : total < 0
      · simp [h1, h2, h3]
      · simp [h1, h2, h3]

/-- C5 counterexample: `ResponseUtil.success` called with no message (the
"neither" case) produces the default text `"Success"` with the
`messageCode` field omitted — not the default code/text pair the claim
requires — and called with the empty string it also produces `"Success"`
instead of the empty string verbatim. -/
theorem C5_counterexample_success_default_omits_code :
    envMsg (ResponseUtil.success (JsonVal.num 1) 200 none) = ("Success", none) ∧
      envMsg (ResponseUtil.success (JsonVal.num 1) 200 (some "")) = ("Success", none) := by
  exact ⟨rfl, rfl⟩

/-- C5 (amended): a known message-code resolves to its canonical text with
the code included, for all four code-accepting helpers; any other
non-empty string is used verbatim with the code omitted; with no message,
`error`, `notFound` and `created` fall back to their default code/text
pair, while plain `success` falls back to the text `"Success"` with the
`messageCode` field omitted (an empty string passed to `success` behaves
like no message). -/
theorem C5_message_resolution_amended (s : String) (d : JsonVal) (st : Nat)
    (errs : Option (List ErrItem)) :
    (MessageCodesValues.contains s = true →
      envMsg (ResponseUtil.success d st (some s)) = (getMessageByCode s, some s) ∧
      envMsg (ResponseUtil.error (some s) errs st) = (getMessageByCode s, some s) ∧
      envMsg (ResponseUtil.notFound (some s)) = (getMessageByCode s, some s) ∧
      envMsg (ResponseUtil.created d (some s)) = (getMessageByCode s, some s)) ∧
    (MessageCodesValues.contains s = false → s ≠ "" →
      envMsg (ResponseUtil.success d st (some s)) = (s, none) ∧
      envMsg (ResponseUtil.error (some s) errs st) = (s, none) ∧
      envMsg (ResponseUtil.notFound (some s)) = (s, none) ∧
      envMsg (ResponseUtil.created d (some s)) = (s, none)) ∧
    (envMsg (ResponseUtil.error none errs st) =
        ("Internal server error", some "INTERNAL_ERROR") ∧
      envMsg (ResponseUtil.notFound none) = ("Not found", some "NOT_FOUND") ∧
      envMsg (ResponseUtil.created d none) = ("Created successfully", some "CREATED") ∧
      envMsg (ResponseUtil.success d st none) = ("Success", none) ∧
      envMsg (ResponseUtil.success d st (some "")) = ("Success", none)) := by
  refine ⟨fun hc => ?_, fun hc hne => ?_, ?_⟩
  · have hne : s ≠ "" := by
      intro h
      subst h
      simp [MessageCodesValues] at hc
    have hmem : s ∈ MessageCodesValues := by simpa using hc
    refine ⟨?_, ?_, ?_, ?_⟩ <;>
      simp [ResponseUtil.success, ResponseUtil.error, ResponseUtil.notFound,
        ResponseUtil.created, ResponseUtil.optionStrTruthy,
        ResponseUtil.resolveMessageAndCode, ResponseUtil.base, envMsg, hmem, hne]
  · have hnmem : s ∉ MessageCodesValues := by simpa using hc
    refine ⟨?_, ?_, ?_, ?_⟩ <;>
      simp [ResponseUtil.success, ResponseUtil.error, ResponseUtil.notFound,
        ResponseUtil.created, ResponseUtil.optionStrTruthy,
        ResponseUtil.resolveMessageAndCode, ResponseUtil.base, envMsg, hnmem, hne]
  · exact ⟨rfl, rfl, rfl, rfl, rfl⟩

/-- Witness for C5 (amended): concrete evaluations through the theorem, at
the known code `"NOT_FOUND"` and the free-text message `"nope"`. -/
theorem C5_message_resolution_amended_witness :
    envMsg (ResponseUtil.success (JsonVal.num 2) 200 (some "NOT_FOUND")) =
        ("Not found", some "NOT_FOUND") ∧
      envMsg (ResponseUtil.error (some "nope") none 500) = ("nope", none) := by
  refine ⟨((C5_message_resolution_amended "NOT_FOUND" (JsonVal.num 2) 200 none).1
    (by decide)).1, ?_⟩
  exact (((C5_message_resolution_amended "nope" (JsonVal.num 2) 200 none).2.1
    (by decide) (by decide)).2.1)

/-- C8: every envelope a formatter helper writes omits the `data` field
entirely when no payload is supplied, never populates both `data` and
`errors`, and carries `pagination` only on `success = true` responses
produced by the `paginated` (list) helper. -/
theorem C8_envelope_field_invariants (c : FormatterCall) (st : Nat) (e : Envelope)
    (h : buildCall c = Except.ok (st, e)) :
    (suppliesPayload c = false → e.data = none) ∧
      (e.data = none ∨ e.errors = none) ∧
      (e.pagination ≠ none →
        e.success = true ∧ ∃ d p l t m, c = FormatterCall.paginated d p l t m) := by
  cases c with
  | success d stc m =>
    rw [show buildCall (FormatterCall.success d stc m)
        = Except.ok (ResponseUtil.success d stc m) from rfl,
      Except.ok.injEq, Prod.ext_iff] at h
    obtain ⟨-, h2⟩ := h
    subst h2
    refine ⟨fun hfa => by simp [suppliesPayload] at hfa, Or.inr ?_, fun hp => absurd ?_ hp⟩ <;>
      (unfold ResponseUtil.success ResponseUtil.base; split <;> rfl)
  | error m errs stc =>
    rw [show buildCall (FormatterCall.error m errs stc)
        = Except.ok (ResponseUtil.error m errs stc) from rfl,
      Except.ok.injEq, Prod.ext_iff] at h
    obtain ⟨-, h2⟩ := h
    subst h2
    exact ⟨fun _ => rfl, Or.inl rfl, fun hp => absurd rfl hp⟩
  | notFound m =>
    rw [show buildCall (FormatterCall.notFound m)
        = Except.ok (ResponseUtil.notFound m) from rfl,
      Except.ok.injEq, Prod.ext_iff] at h
    obtain ⟨-, h2⟩ := h
    subst h2
    exact ⟨fun _ => rfl, Or.inl rfl, fun hp => absurd rfl hp⟩
  | created d m =>
    rw [show buildCall (FormatterCall.created d m)
        = Except.ok (ResponseUtil.created d m) from rfl,
      Except.ok.injEq, Prod.ext_iff] at h
    obtain ⟨-, h2⟩ := h
    subst h2
    exact ⟨fun hfa => by simp [suppliesPayload] at hfa, Or.inr rfl, fun hp => absurd rfl hp⟩
  | validationError errs m =>
    rw [show buildCall (FormatterCall.validationError errs m)
        = Except.ok (ResponseUtil.validationError errs m) from rfl,
      Except.ok.injEq, Prod.ext_iff] at h
    obtain ⟨-, h2⟩ := h
    subst h2
    exact ⟨fun _ => rfl, Or.inl rfl, fun hp => absurd rfl hp⟩
  | unprocessableEntity m errs =>
    rw [show buildCall (FormatterCall.unprocessableEntity m errs)
        = Except.ok (ResponseUtil.unprocessableEntity m errs) from rfl,
      Except.ok.injEq, Prod.ext_iff] at h
    obtain ⟨-, h2⟩ := h
    subst h2
    exact ⟨fun _ => rfl, Or.inl rfl, fun hp => absurd rfl hp⟩
  | unauthorized m =>
    rw [show buildCall (FormatterCall.unauthorized m)
        = Except.ok (ResponseUtil.unauthorized m) from rfl,
      Except.ok.injEq, Prod.ext_iff] at h
    obtain ⟨-, h2⟩ := h
    subst h2
    exact ⟨fun _ => rfl, Or.inl rfl, fun hp => absurd rfl hp⟩
  | forbidden m =>
    rw [show buildCall (FormatterCall.forbidden m)
        = Except.ok (ResponseUtil.forbidden m) from rfl,
      Except.ok.injEq, Prod.ext_iff] at h
    obtain ⟨-, h2⟩ := h
    subst h2
    exact ⟨fun _ => rfl, Or.inl rfl, fun hp => absurd rfl hp⟩
  | noContent m =>
    rw [show buildCall (FormatterCall.noContent m)
        = Except.ok (ResponseUtil.noContent m) from rfl,
      Except.ok.injEq, Prod.ext_iff] at h
    obtain ⟨-, h2⟩ := h
    subst h2
    exact ⟨fun _ => rfl, Or.inl rfl, fun hp => absurd rfl hp⟩
  | tooManyRequests m r =>
    rw [show buildCall (FormatterCall.tooManyRequests m r)
        = Except.ok (ResponseUtil.tooManyRequests m r) from rfl,
      Except.ok.injEq, Prod.ext_iff] at h
    obtain ⟨-, h2⟩ := h
    subst h2
    refine ⟨fun _ => rfl, Or.inl rfl, fun hp => absurd ?_ hp⟩
    unfold ResponseUtil.tooManyRequests ResponseUtil.base
    cases r with
    | none => rfl
    | some rv => by_cases hrv : rv = 0 <;> simp [hrv]
  | serviceUnavailable m =>
    rw [show buildCall (FormatterCall.serviceUnavailable m)
        = Except.ok (ResponseUtil.serviceUnavailable m) from rfl,
      Except.ok.injEq, Prod.ext_iff] at h
    obtain ⟨-, h2⟩ := h
    subst h2
    exact ⟨fun _ => rfl, Or.inl rfl, fun hp => absurd rfl hp⟩
  | paginated d p l t m =>
    rw [show buildCall (FormatterCall.paginated d p l t m)
        = ResponseUtil.paginated d p l t m from rfl] at h
    unfold ResponseUtil.paginated at h
    by_cases h1 : l ≤ 0
    · rw [if_pos h1] at h
      exact Except.noConfusion h
    · rw [if_neg h1] at h
      by_cases h2 : p < 1
      · rw [if_pos h2] at h
        exact Except.noConfusion h
      · rw [if_neg h2] at h
        by_cases h3 : t < 0
        · rw [if_pos h3] at h
          exact Except.noConfusion h
        · rw [if_neg h3] at h
          rw [Except.ok.injEq, Prod.ext_iff] at h
          obtain ⟨-, h4⟩ := h
          subst h4
          exact ⟨fun hfa => by simp [suppliesPayload] at hfa, Or.inr rfl,
            fun _ => ⟨rfl, d, p, l, t, m, rfl⟩⟩

/-- Witness for C8: concrete invariant instances obtained through the
theorem for a validation-error call and for a successful paginated call. -/
theorem C8_envelope_field_invariants_witness :
    ((ResponseUtil.validationError [ErrItem.issue "name" "Required"] "Validation failed").2.data
        = none) ∧
      ((ResponseUtil.validationError [ErrItem.issue "name" "Required"] "Validation failed").2.data
          = none ∨
        (ResponseUtil.validationError [ErrItem.issue "name" "Required"] "Validation failed").2.errors
          = none) := by
  have h := C8_envelope_field_invariants
    (FormatterCall.validationError [ErrItem.issue "name" "Required"] "Validation failed")
    (ResponseUtil.validationError [ErrItem.issue "name" "Required"] "Validation failed").1
    (ResponseUtil.validationError [ErrItem.issue "name" "Required"] "Validation failed").2
    rfl
  exact ⟨h.1 rfl, h.2.1⟩

/-- C1 counterexample: a structurally valid but expired credential,
presented over the configured cookie transport, is rejected with 401 but
the stored cookie is NOT cleared (`jsonwebtoken` raises
`TokenExpiredError` inside `JwtUtil.verify`, so the middleware's own
expiry branch — the only place that clears the cookie — never runs),
refuting the claim that cleanup and rejection occur on the same
request. -/
theorem C1_counterexample_expired_cookie_not_cleared :
    authMiddleware Transport.cookie 1000
        ⟨some (some (Token.signed ⟨"u1", "a@x.com", "Ann"⟩ 500 true)), none⟩ =
      ⟨some (HttpStatus.UNAUTHORIZED, "Invalid or expired token"), false, false, none⟩ :=
  rfl

/-- C1 (amended): for every request presenting a structurally valid but
time-expired credential over the configured transport, the gate rejects
with 401 `"Invalid or expired token"` on that same request and the
downstream handler never runs, but the stored cookie credential is not
cleared. -/
theorem C1_expired_credential_rejected_amended
    (transport : Transport) (now : Nat) (req : AuthRequest)
    (claims : JwtClaims) (e : Nat)
    (hguard : authGuardRejects transport req = false)
    (htok : extractToken transport req = some (Token.signed claims e true))
    (hexp : e ≤ now) :
    authMiddleware transport now req =
      ⟨some (HttpStatus.UNAUTHORIZED, "Invalid or expired token"), false, false, none⟩ := by
  simp [authMiddleware, hguard, htok, jwtVerify, hexp]

/-- Witness for C1 (amended): an expired valid token in the cookie jar
under cookie transport. -/
theorem C1_expired_credential_rejected_amended_witness :
    authMiddleware Transport.cookie 1000
        ⟨some (some (Token.signed ⟨"u2", "b@x.com", "Bob"⟩ 999 true)), none⟩ =
      ⟨some (HttpStatus.UNAUTHORIZED, "Invalid or expired token"), false, false, none⟩ :=
  C1_expired_credential_rejected_amended Transport.cookie 1000
    ⟨some (some (Token.signed ⟨"u2", "b@x.com", "Bob"⟩ 999 true)), none⟩
    ⟨"u2", "b@x.com", "Bob"⟩ 999 rfl rfl (by decide)

/-- C2 counterexample: a storage error with the unknown code `P9999` and
raw engine message `"boom"` is classified as 500 with the raw message
itself as the client-visible response message; and when the raw message
happens to start with `"File type"`, an earlier classifier branch even
pre-empts the storage branch and answers 400. -/
theorem C2_counterexample_unknown_code_message_surfaced :
    errorHandler (ThrownError.prisma "P9999" (some "boom") none) =
        ⟨500, "boom", none⟩ ∧
      errorHandler (ThrownError.prisma "P9999" (some "File type mismatch") none) =
        ⟨400, "Invalid file type", none⟩ :=
  ⟨rfl, rfl⟩

/-- C2 (amended): for every storage-layer error whose code is not in the
static lookup table and whose raw message does not begin with
`"File type"` (an earlier classifier branch intercepts those), the
classifier produces HTTP 500 and the client-visible message IS the raw
storage-engine message (`"Database error"` when absent,
`"A database error occurred"` when empty) — the raw message is not
confined to the logs. -/
theorem C2_unknown_storage_code_maps_to_500_amended
    (code : String) (msg meta : Option String)
    (hunknown : findErrorDetails (some code) = none)
    (hnotfile : jsStartsWith (msg.getD "") "File type" = false) :
    errorHandler (ThrownError.prisma code msg meta) =
      ⟨500,
        match msg with
        | some m => if m = "" then "A database error occurred" else m
        | none => "Database error",
        match meta with
        | some mm => some [ErrItem.metaInfo mm]
        | none => none⟩ := by
  simp only [errorHandler, hnotfile, Bool.false_eq_true, if_false,
    mapPrismaError, hunknown]
  cases msg with
  | none => cases meta <;> simp [HttpStatus.INTERNAL_SERVER_ERROR]
  | some m =>
    by_cases hm : m = ""
    · subst hm
      cases meta <;> simp [HttpStatus.INTERNAL_SERVER_ERROR]
    · cases meta <;> simp [HttpStatus.INTERNAL_SERVER_ERROR, hm]

/-- Witness for C2 (amended): the unknown code `P4242` with raw message
`"relation blew up"` reaches the client with status 500. -/
theorem C2_unknown_storage_code_maps_to_500_amended_witness :
    errorHandler (ThrownError.prisma "P4242" (some "relation blew up") none) =
      ⟨500, "relation blew up", none⟩ :=
  C2_unknown_storage_code_maps_to_500_amended "P4242" (some "relation blew up")
    none rfl rfl

/-- C3: after every successful user mutation (create, update, delete), no
cache entry whose key starts with the user-list prefix `users:all:page:`
is present in the post-state — the prefix invalidation runs before the
service returns. -/
theorem C3_user_mutations_invalidate_list_cache
    (hash : String → String) (freshId : String) (cdata : CreateUserInput)
    (userId : String) (udata : UpdateUserInput) (st : SvcState)
    (k : String) (hk : jsStartsWith k "users:all:page:" = true) :
    (∀ u st', UserService.createUserService hash freshId cdata st = (Except.ok u, st') →
      CacheM.get st'.cache k = none) ∧
    (∀ u st', UserService.updateUserService hash userId udata st = (Except.ok u, st') →
      CacheM.get st'.cache k = none) ∧
    (∀ u st', UserService.deleteUserService userId st = (Except.ok u, st') →
      CacheM.get st'.cache k = none) := by
  refine ⟨fun u st' h => ?_, fun u st' h => ?_, fun u st' h => ?_⟩
  · simp only [UserService.createUserService] at h
    split at h
    · exact absurd (congrArg Prod.fst h) (by simp)
    · obtain ⟨h1, h2⟩ := Prod.mk.injEq .. |>.mp h
      subst h2
      exact CacheM.get_delPattern_of_startsWith st.cache hk
  · simp only [UserService.updateUserService] at h
    split at h
    · exact absurd (congrArg Prod.fst h) (by simp)
    · split at h
      · exact absurd (congrArg Prod.fst h) (by simp)
      · obtain ⟨h1, h2⟩ := Prod.mk.injEq .. |>.mp h
        subst h2
        exact CacheM.get_delPattern_of_startsWith st.cache hk
  · simp only [UserService.deleteUserService] at h
    split at h
    · exact absurd (congrArg Prod.fst h) (by simp)
    · split at h
      · exact absurd (congrArg Prod.fst h) (by simp)
      · obtain ⟨h1, h2⟩ := Prod.mk.injEq .. |>.mp h
        subst h2
        exact CacheM.get_delPattern_of_startsWith st.cache hk

/-- Witness for C3: a concrete create wipes a previously cached first
list page. -/
theorem C3_user_mutations_invalidate_list_cache_witness :
    CacheM.get
      (UserService.createUserService (fun s => s) "id1"
        ⟨"Ann", "a@x.com", "pw"⟩
        ⟨[], [("users:all:page:1:limit:10", ⟨[], 1, 10, 0, 0, false, false⟩)]⟩).2.cache
      "users:all:page:1:limit:10" = none := by
  have h := (C3_user_mutations_invalidate_list_cache (fun s => s) "id1"
    ⟨"Ann", "a@x.com", "pw"⟩ "unused" ⟨none, none⟩
    ⟨[], [("users:all:page:1:limit:10", ⟨[], 1, 10, 0, 0, false, false⟩)]⟩
    "users:all:page:1:limit:10" rfl).1
  exact h _ _ rfl

/-- C6: the two login failure causes — unknown email, and known email
with a non-matching password — produce the same thrown error: the
generic invalid-credentials message with status 401, and the classifier
turns it into the same 401 response, so the two runs are
indistinguishable. -/
theorem C6_login_failures_indistinguishable
    (compare : String → String → Bool) (token : String)
    (e1 p1 e2 p2 : String) (st1 st2 : SvcState)
    (h1 : UserRepository.findByEmail st1.db e1 none = none)
    (h2 : ∃ u, UserRepository.findByEmail st2.db e2 none = some u ∧
      compare p2 u.password = false) :
    (UserService.loginService compare token e1 p1 st1).1 =
        Except.error (ThrownError.appError "Email or password is incorrect"
          HttpStatus.UNAUTHORIZED none) ∧
      (UserService.loginService compare token e2 p2 st2).1 =
        Except.error (ThrownError.appError "Email or password is incorrect"
          HttpStatus.UNAUTHORIZED none) ∧
      (UserService.loginService compare token e1 p1 st1).1 =
        (UserService.loginService compare token e2 p2 st2).1 ∧
      errorHandler (ThrownError.appError "Email or password is incorrect"
          HttpStatus.UNAUTHORIZED none) =
        ⟨401, "Email or password is incorrect", none⟩ := by
  obtain ⟨u, hu, hcmp⟩ := h2
  have ha : (UserService.loginService compare token e1 p1 st1).1 =
      Except.error (ThrownError.appError "Email or password is incorrect"
        HttpStatus.UNAUTHORIZED none) := by
    simp [UserService.loginService, h1]
  have hb : (UserService.loginService compare token e2 p2 st2).1 =
      Except.error (ThrownError.appError "Email or password is incorrect"
        HttpStatus.UNAUTHORIZED none) := by
    simp [UserService.loginService, hu, hcmp]
  exact ⟨ha, hb, by rw [ha, hb], rfl⟩

/-- Witness for C6: a one-user store; a login for an absent email and a
login with the wrong password yield the same error. -/
theorem C6_login_failures_indistinguishable_witness :
    (UserService.loginService (fun pw hsh => pw == hsh) "tok" "ghost@x.com" "pw"
        ⟨[⟨"u1", "Ann", "a@x.com", "secret"⟩], []⟩).1 =
        Except.error (ThrownError.appError "Email or password is incorrect"
          HttpStatus.UNAUTHORIZED none) ∧
      (UserService.loginService (fun pw hsh => pw == hsh) "tok" "a@x.com" "wrong"
        ⟨[⟨"u1", "Ann", "a@x.com", "secret"⟩], []⟩).1 =
        Except.error (ThrownError.appError "Email or password is incorrect"
          HttpStatus.UNAUTHORIZED none) := by
  have h := C6_login_failures_indistinguishable (fun pw hsh => pw == hsh) "tok"
    "ghost@x.com" "pw" "a@x.com" "wrong"
    ⟨[⟨"u1", "Ann", "a@x.com", "secret"⟩], []⟩
    ⟨[⟨"u1", "Ann", "a@x.com", "secret"⟩], []⟩
    rfl ⟨⟨"u1", "Ann", "a@x.com", "secret"⟩, rfl, rfl⟩
  exact ⟨h.1, h.2.1⟩

/-- C7: deleting an id that is not in the user store throws the
`Not found` domain error, which the classifier translates to HTTP 404 —
not 500. -/
theorem C7_delete_missing_id_maps_to_404
    (userId : String) (st : SvcState)
    (hmissing : UserRepository.findById st.db userId = none) :
    (UserService.deleteUserService userId st).1 =
        Except.error (ThrownError.appError "Not found" HttpStatus.NOT_FOUND none) ∧
      errorHandler (ThrownError.appError "Not found" HttpStatus.NOT_FOUND none) =
        ⟨404, "Not found", none⟩ ∧
      (errorHandler (ThrownError.appError "Not found"
        HttpStatus.NOT_FOUND none)).statusCode ≠ 500 := by
  have hget : (UserService.getUserByIdService userId st).1 =
      Except.error (ThrownError.appError "Not found" HttpStatus.NOT_FOUND none) := by
    simp [UserService.getUserByIdService, hmissing]
  refine ⟨?_, rfl, by decide⟩
  simp [UserService.deleteUserService, hget]

/-- Witness for C7: deleting the same id twice from a one-user store —
the second call hits the already-deleted id and yields the 404-classified
error. -/
theorem C7_delete_missing_id_maps_to_404_witness :
    (UserService.deleteUserService "u1"
        (UserService.deleteUserService "u1"
          ⟨[⟨"u1", "Ann", "a@x.com", "h"⟩], []⟩).2).1 =
      Except.error (ThrownError.appError "Not found" HttpStatus.NOT_FOUND none) :=
  (C7_delete_missing_id_maps_to_404 "u1"
    (UserService.deleteUserService "u1" ⟨[⟨"u1", "Ann", "a@x.com", "h"⟩], []⟩).2
    rfl).1

/-- C9: update and delete on an id that is not in the store fail with the
`Not found` domain error and leave the entire state — user store and
cache, including every `users:all:page:` entry — exactly unchanged. -/
theorem C9_missing_id_mutation_leaves_state_unchanged
    (hash : String → String) (userId : String) (udata : UpdateUserInput)
    (st : SvcState)
    (hmissing : UserRepository.findById st.db userId = none) :
    UserService.updateUserService hash userId udata st =
        (Except.error (ThrownError.appError "Not found" HttpStatus.NOT_FOUND none), st) ∧
      UserService.deleteUserService userId st =
        (Except.error (ThrownError.appError "Not found" HttpStatus.NOT_FOUND none), st) := by
  have hget : (UserService.getUserByIdService userId st).1 =
      Except.error (ThrownError.appError "Not found" HttpStatus.NOT_FOUND none) := by
    simp [UserService.getUserByIdService, hmissing]
  constructor
  · simp [UserService.updateUserService, hget]
  · simp [UserService.deleteUserService, hget]

/-- Witness for C9: updating a missing id in a store with one user and a
cached list page returns the error with the state unchanged. -/
theorem C9_missing_id_mutation_leaves_state_unchanged_witness :
    UserService.updateUserService (fun s => s) "ghost" ⟨some "New", none⟩
        ⟨[⟨"u1", "Ann", "a@x.com", "h"⟩],
          [("users:all:page:1:limit:10", ⟨[], 1, 10, 1, 1, false, false⟩)]⟩ =
      (Except.error (ThrownError.appError "Not found" HttpStatus.NOT_FOUND none),
        ⟨[⟨"u1", "Ann", "a@x.com", "h"⟩],
          [("users:all:page:1:limit:10", ⟨[], 1, 10, 1, 1, false, false⟩)]⟩) :=
  (C9_missing_id_mutation_leaves_state_unchanged (fun s => s) "ghost"
    ⟨some "New", none⟩
    ⟨[⟨"u1", "Ann", "a@x.com", "h"⟩],
      [("users:all:page:1:limit:10", ⟨[], 1, 10, 1, 1, false, false⟩)]⟩
    rfl).1
